import Mathlib

/-!
Shallow embedding of `src/programs/solana-escrow/src/lib.rs` (Anchor program
`solana_escrow`): the escrow data model, the three instruction handlers
`initialize`, `release`, `cancel`, and the Anchor account constraints of their
`#[derive(Accounts)]` structs, together with theorems about the escrow state
machine, the deadline validation and the token movements.

Modelling conventions:
  * `Pubkey` values are modelled as `Nat` (only equality of keys matters).
  * `u64` values (`amount`, token balances) are modelled as `Nat`; the only
    `u64` check in the program is `amount > 0`.
  * `i64` values (`deadline`, the clock) are modelled as `Int`; the one place
    where machine overflow matters is `now + MAX_DEADLINE_SECS` (lib.rs:28),
    which is embedded as wrapping two's-complement addition `wrapI64`.
  * `transfer_checked` (SPL token interface) verifies the mint of both token
    accounts and sufficient balance, then moves the exact amount; its failure,
    like any instruction error, aborts the whole transaction, so the
    observable post-state of a failed instruction is the pre-state (the
    `apply*` wrappers below model that transactional commit).
  * PDA derivation (`seeds`/`bump`) pins the identity of the `escrow` and
    `vault` accounts; in the embedding the caller-supplied accounts stand for
    the accounts at those derived addresses, and the vault's PDA self-signing
    always succeeds (the handler reconstructs the seeds from the record).
-/

namespace SolanaEscrow

/-- Two's-complement range bound: `i64::MIN = -(2^63)`. -/
def INT64_MIN : Int := -(2 ^ 63)

/-- Two's-complement range bound: `i64::MAX = 2^63 - 1`. -/
def INT64_MAX : Int := 2 ^ 63 - 1

/-- Wrapping interpretation of an integer as a signed 64-bit value
(two's-complement reduction modulo `2^64`). -/
def wrapI64 (x : Int) : Int := (x + 2 ^ 63) % 2 ^ 64 - 2 ^ 63

/-- lib.rs:7 — `const MAX_DEADLINE_SECS: i64 = 90 * 24 * 60 * 60;` -/
def MAX_DEADLINE_SECS : Int := 90 * 24 * 60 * 60

/-- lib.rs:163-167 — `enum EscrowState { Locked, Released, Cancelled }`. -/
inductive EscrowState
  | Locked
  | Released
  | Cancelled
deriving DecidableEq, Repr

/-- lib.rs:143-160 — the persistent `Escrow` account data. -/
structure Escrow where
  buyer : Nat
  seller : Nat
  mint : Nat
  amount : Nat
  deadline : Int
  bump : Nat
  vault_bump : Nat
  state : EscrowState
deriving DecidableEq, Repr

/-- An SPL token account: its mint, its authority (owner) and its balance. -/
structure TokenAccount where
  mint : Nat
  owner : Nat
  amount : Nat
deriving DecidableEq, Repr

/-- Program outcomes: the four `EscrowError` variants (lib.rs:300-309), an
Anchor account-constraint failure, and a token-program (CPI) failure. -/
inductive ProgErr
  | ZeroAmount
  | DeadlineInPast
  | DeadlineTooFar
  | NotLocked
  | ConstraintViolation
  | TokenProgramError
deriving DecidableEq, Repr

/-- `token_interface::transfer_checked`: requires both accounts to be of the
given mint and the source to hold at least `amount`; moves exactly `amount`
from `src` to `dst`. -/
def transferChecked (src dst : TokenAccount) (mint : Nat) (amount : Nat) :
    Except ProgErr (TokenAccount × TokenAccount) :=
  if src.mint = mint ∧ dst.mint = mint ∧ amount ≤ src.amount then
    Except.ok ({ src with amount := src.amount - amount },
               { dst with amount := dst.amount + amount })
  else
    Except.error ProgErr.TokenProgramError

/-- lib.rs:27-30 — the `DeadlineTooFar` guard condition
`deadline <= now + MAX_DEADLINE_SECS`, with the addition performed as
unguarded (wrapping) `i64` addition. -/
def deadlineWithinHorizon (now deadline : Int) : Prop :=
  deadline ≤ wrapI64 (now + MAX_DEADLINE_SECS)

instance (now deadline : Int) : Decidable (deadlineWithinHorizon now deadline) :=
  inferInstanceAs (Decidable (_ ≤ _))

/-- lib.rs:17-61 — `initialize(ctx, amount, deadline)`, including the Anchor
constraints of the `Initialize` accounts struct (lib.rs:173-218): the buyer's
token account must be of the given mint with the buyer as authority, and the
escrow PDA must not already exist (`init`). The vault is freshly created with
balance 0, mint `mintKey` and itself as authority. On success it returns the
populated escrow record, the debited buyer token account and the credited
vault. -/
def initEscrow (now : Int) (buyerKey sellerKey mintKey vaultKey : Nat)
    (buyerTokenAccount : TokenAccount) (escrowExists : Bool)
    (amount : Nat) (deadline : Int) (bump vaultBump : Nat) :
    Except ProgErr (Escrow × TokenAccount × TokenAccount) :=
  if ¬ (buyerTokenAccount.mint = mintKey ∧ buyerTokenAccount.owner = buyerKey ∧
        escrowExists = false) then
    Except.error ProgErr.ConstraintViolation
  else if ¬ 0 < amount then
    Except.error ProgErr.ZeroAmount
  else if ¬ deadline > now then
    Except.error ProgErr.DeadlineInPast
  else if ¬ deadlineWithinHorizon now deadline then
    Except.error ProgErr.DeadlineTooFar
  else
    let escrow : Escrow :=
      { buyer := buyerKey, seller := sellerKey, mint := mintKey,
        amount := amount, deadline := deadline, bump := bump,
        vault_bump := vaultBump, state := EscrowState.Locked }
    let vault : TokenAccount := { mint := mintKey, owner := vaultKey, amount := 0 }
    match transferChecked buyerTokenAccount vault mintKey amount with
    | Except.error e => Except.error e
    | Except.ok (src, dst) => Except.ok (escrow, src, dst)

/-- lib.rs:64-97 — `release(ctx)`, including the Anchor constraints of the
`Release` accounts struct (lib.rs:221-255): `has_one = buyer`,
`has_one = mint`, and `seller_token_account` constrained only by
`token::mint = mint` (the source places no ownership constraint on it).
Transfers `escrow.amount` from the vault to the seller token account and sets
the state to `Released`. -/
def release (buyerKey mintKey : Nat) (escrow : Escrow)
    (vault sellerTokenAccount : TokenAccount) :
    Except ProgErr (Escrow × TokenAccount × TokenAccount) :=
  if ¬ (escrow.buyer = buyerKey ∧ escrow.mint = mintKey ∧
        sellerTokenAccount.mint = mintKey) then
    Except.error ProgErr.ConstraintViolation
  else if ¬ escrow.state = EscrowState.Locked then
    Except.error ProgErr.NotLocked
  else
    match transferChecked vault sellerTokenAccount mintKey escrow.amount with
    | Except.error e => Except.error e
    | Except.ok (v, s) =>
        Except.ok ({ escrow with state := EscrowState.Released }, v, s)

/-- lib.rs:101-134 — `cancel(ctx)`, including the Anchor constraints of the
`Cancel` accounts struct (lib.rs:258-293): `has_one = buyer`,
`has_one = mint`, and `buyer_token_account` with `token::mint = mint` and
`token::authority = buyer`. Transfers `escrow.amount` from the vault back to
the buyer token account and sets the state to `Cancelled`. No clock is read:
the handler has no time input at all. -/
def cancel (buyerKey mintKey : Nat) (escrow : Escrow)
    (vault buyerTokenAccount : TokenAccount) :
    Except ProgErr (Escrow × TokenAccount × TokenAccount) :=
  if ¬ (escrow.buyer = buyerKey ∧ escrow.mint = mintKey ∧
        buyerTokenAccount.mint = mintKey ∧ buyerTokenAccount.owner = buyerKey) then
    Except.error ProgErr.ConstraintViolation
  else if ¬ escrow.state = EscrowState.Locked then
    Except.error ProgErr.NotLocked
  else
    match transferChecked vault buyerTokenAccount mintKey escrow.amount with
    | Except.error e => Except.error e
    | Except.ok (v, b) =>
        Except.ok ({ escrow with state := EscrowState.Cancelled }, v, b)

/-- Observable effect of an `initialize` transaction: on error the whole
transaction aborts, so no record exists, the buyer's token account is
untouched and no vault was created. -/
def applyInitEscrow (now : Int) (buyerKey sellerKey mintKey vaultKey : Nat)
    (buyerTokenAccount : TokenAccount) (escrowExists : Bool)
    (amount : Nat) (deadline : Int) (bump vaultBump : Nat) :
    Option Escrow × TokenAccount × Option TokenAccount :=
  match initEscrow now buyerKey sellerKey mintKey vaultKey buyerTokenAccount
      escrowExists amount deadline bump vaultBump with
  | Except.ok (e, src, v) => (some e, src, some v)
  | Except.error _ => (none, buyerTokenAccount, none)

/-- Observable effect of a `release` transaction: on error the pre-state
(escrow record, vault balance, seller token account) is unchanged. -/
def applyRelease (buyerKey mintKey : Nat) (escrow : Escrow)
    (vault sellerTokenAccount : TokenAccount) :
    Escrow × TokenAccount × TokenAccount :=
  match release buyerKey mintKey escrow vault sellerTokenAccount with
  | Except.ok r => r
  | Except.error _ => (escrow, vault, sellerTokenAccount)

/-- Observable effect of a `cancel` transaction: on error the pre-state is
unchanged. -/
def applyCancel (buyerKey mintKey : Nat) (escrow : Escrow)
    (vault buyerTokenAccount : TokenAccount) :
    Escrow × TokenAccount × TokenAccount :=
  match cancel buyerKey mintKey escrow vault buyerTokenAccount with
  | Except.ok r => r
  | Except.error _ => (escrow, vault, buyerTokenAccount)

instance {ε α : Type} [DecidableEq ε] [DecidableEq α] : DecidableEq (Except ε α) :=
fun x y =>
  match x, y with
  | Except.ok a, Except.ok b =>
      if h : a = b then Decidable.isTrue (congrArg Except.ok h)
      else Decidable.isFalse (fun hc => h (Except.ok.inj hc))
  | Except.error a, Except.error b =>
      if h : a = b then Decidable.isTrue (congrArg Except.error h)
      else Decidable.isFalse (fun hc => h (Except.error.inj hc))
  | Except.ok _, Except.error _ => Decidable.isFalse (fun hc => Except.noConfusion hc)
  | Except.error _, Except.ok _ => Decidable.isFalse (fun hc => Except.noConfusion hc)

/-- Two's-complement reduction is the identity on values already inside the
`i64` range. -/
theorem wrapI64_id (x : Int) (h1 : INT64_MIN ≤ x) (h2 : x ≤ INT64_MAX) :
    wrapI64 x = x := by
  have h1' : -(2 ^ 63 : Int) ≤ x := h1
  have h2' : x ≤ 2 ^ 63 - 1 := h2
  have h0 : (0 : Int) ≤ x + 2 ^ 63 := by linarith
  have hpow : (2 : Int) ^ 63 + 2 ^ 63 = 2 ^ 64 := by norm_num
  have hlt : x + 2 ^ 63 < 2 ^ 64 := by linarith
  unfold wrapI64
  rw [Int.emod_eq_of_lt h0 hlt]
  ring

/-- C7: an `initialize` call whose accounts pass the Anchor constraints but
whose `amount` is `0` fails with `ZeroAmount`; no escrow record is created,
the buyer's token account keeps its balance and no vault is funded. -/
theorem init_zero_amount_fails (now : Int) (bk sk mk vk : Nat)
    (bTA : TokenAccount) (deadline : Int) (bump vbump : Nat)
    (h1 : bTA.mint = mk) (h2 : bTA.owner = bk) :
    initEscrow now bk sk mk vk bTA false 0 deadline bump vbump
      = Except.error ProgErr.ZeroAmount
    ∧ applyInitEscrow now bk sk mk vk bTA false 0 deadline bump vbump
      = (none, bTA, none) := by
  have hmain : initEscrow now bk sk mk vk bTA false 0 deadline bump vbump
      = Except.error ProgErr.ZeroAmount := by
    unfold initEscrow
    simp [h1, h2]
  refine ⟨hmain, ?_⟩
  unfold applyInitEscrow
  rw [hmain]

/-- C9: in `initialize` the `amount > 0` check (lib.rs:22) runs before both
deadline checks — `amount = 0` yields `ZeroAmount` for every deadline,
however invalid — and the `DeadlineInPast` check (lib.rs:26) runs before the
`DeadlineTooFar` check (lib.rs:27-30): whenever `deadline ≤ now`, the error
is `DeadlineInPast` regardless of the horizon guard. -/
theorem init_error_precedence :
    (∀ (now : Int) (bk sk mk vk : Nat) (bTA : TokenAccount) (deadline : Int)
        (bump vbump : Nat), bTA.mint = mk → bTA.owner = bk →
        initEscrow now bk sk mk vk bTA false 0 deadline bump vbump
          = Except.error ProgErr.ZeroAmount)
    ∧ (∀ (now : Int) (bk sk mk vk : Nat) (bTA : TokenAccount) (amount : Nat)
        (deadline : Int) (bump vbump : Nat),
        bTA.mint = mk → bTA.owner = bk → 0 < amount → deadline ≤ now →
        initEscrow now bk sk mk vk bTA false amount deadline bump vbump
          = Except.error ProgErr.DeadlineInPast) := by
  constructor
  · intro now bk sk mk vk bTA deadline bump vbump h1 h2
    unfold initEscrow
    simp [h1, h2]
  · intro now bk sk mk vk bTA amount deadline bump vbump h1 h2 hamt hdl
    unfold initEscrow
    simp [h1, h2, hamt, not_lt.mpr hdl]

/-- C9 witness: instantiating the precedence theorem at concrete calls. -/
theorem init_error_precedence_witness :
    initEscrow 0 1 2 3 4 { mint := 3, owner := 1, amount := 10 } false 0 (-7) 0 0
      = Except.error ProgErr.ZeroAmount
    ∧ initEscrow 0 1 2 3 4 { mint := 3, owner := 1, amount := 10 } false 8 (-7) 0 0
      = Except.error ProgErr.DeadlineInPast :=
  ⟨init_error_precedence.1 0 1 2 3 4 _ (-7) 0 0 rfl rfl,
   init_error_precedence.2 0 1 2 3 4 _ 8 (-7) 0 0 rfl rfl (by decide) (by decide)⟩

/-- C7 witness: the zero-amount theorem at the spec's concrete scenario
`Initialize(amount=0, deadline=now+3600)` with `now = 0`. -/
theorem init_zero_amount_fails_witness :
    initEscrow 0 1 2 3 4 { mint := 3, owner := 1, amount := 10 } false 0 3600 0 0
      = Except.error ProgErr.ZeroAmount
    ∧ applyInitEscrow 0 1 2 3 4 { mint := 3, owner := 1, amount := 10 } false 0 3600 0 0
      = (none, { mint := 3, owner := 1, amount := 10 }, none) :=
  init_zero_amount_fails 0 1 2 3 4 { mint := 3, owner := 1, amount := 10 } 3600 0 0 rfl rfl

/-- C5: the `Release` accounts struct (lib.rs:247-252) constrains
`seller_token_account` only by `token::mint = mint` — it never checks that the
account belongs to the escrow's recorded seller. A release whose destination
is owned by key `7`, while the record's seller is key `5`, succeeds and moves
the full amount to that foreign account instead of failing. -/
theorem release_accepts_foreign_destination :
    ({ mint := 3, owner := 7, amount := 0 } : TokenAccount).owner
      ≠ ({ buyer := 1, seller := 5, mint := 3, amount := 100, deadline := 1000,
           bump := 0, vault_bump := 0, state := EscrowState.Locked } : Escrow).seller
    ∧ release 1 3
        { buyer := 1, seller := 5, mint := 3, amount := 100, deadline := 1000,
          bump := 0, vault_bump := 0, state := EscrowState.Locked }
        { mint := 3, owner := 9, amount := 100 }
        { mint := 3, owner := 7, amount := 0 }
      = Except.ok
          ({ buyer := 1, seller := 5, mint := 3, amount := 100, deadline := 1000,
             bump := 0, vault_bump := 0, state := EscrowState.Released },
           { mint := 3, owner := 9, amount := 0 },
           { mint := 3, owner := 7, amount := 100 }) :=
  ⟨by decide, rfl⟩

/-- C4 counterexample: at `now = i64::MAX - 1` with `deadline = i64::MAX` and
`amount = 1`, all of the claim's preconditions hold (`amount > 0`,
`now < deadline ≤ now + 90 days`, both instants in `i64` range, accounts
valid and funded), yet `initialize` fails with `DeadlineTooFar`: the guard's
`i64` addition `now + MAX_DEADLINE_SECS` wraps negative. -/
theorem init_success_overflow_cex :
    (0 < (1 : Nat)
      ∧ (2 ^ 63 - 2 : Int) < 2 ^ 63 - 1
      ∧ (2 ^ 63 - 1 : Int) ≤ (2 ^ 63 - 2) + MAX_DEADLINE_SECS
      ∧ INT64_MIN ≤ (2 ^ 63 - 2 : Int)
      ∧ (2 ^ 63 - 1 : Int) ≤ INT64_MAX)
    ∧ initEscrow (2 ^ 63 - 2) 1 2 3 4 { mint := 3, owner := 1, amount := 10 }
        false 1 (2 ^ 63 - 1) 0 0
      = Except.error ProgErr.DeadlineTooFar :=
  ⟨by norm_num [MAX_DEADLINE_SECS, INT64_MIN, INT64_MAX], rfl⟩

/-- C6 counterexample: with `amount = 0` and `deadline = -5 ≤ now = 0`, the
call fails with `ZeroAmount`, not `DeadlineInPast` — the amount check
(lib.rs:22) runs first, so the claim's unconditional first clause is false. -/
theorem init_deadline_error_cex :
    ((-5 : Int) ≤ 0)
    ∧ initEscrow 0 1 2 3 4 { mint := 3, owner := 1, amount := 10 } false 0 (-5) 0 0
      = Except.error ProgErr.ZeroAmount
    ∧ initEscrow 0 1 2 3 4 { mint := 3, owner := 1, amount := 10 } false 0 (-5) 0 0
      ≠ Except.error ProgErr.DeadlineInPast :=
  ⟨by norm_num, rfl, by decide⟩

/-- C2: a `release` on a `Locked` record whose accounts satisfy the Anchor
constraints and whose vault holds exactly the recorded amount moves that
amount from the vault to the seller token account, leaves the vault at 0 and
sets the state to `Released`; on a non-`Locked` record it fails with
`NotLocked` and transfers nothing. -/
theorem release_locked_moves_amount (bk mk : Nat) (escrow : Escrow)
    (vault sTA : TokenAccount)
    (hb : escrow.buyer = bk) (hm : escrow.mint = mk) (hs : sTA.mint = mk)
    (hv : vault.mint = mk) (hbal : vault.amount = escrow.amount) :
    (escrow.state = EscrowState.Locked →
      release bk mk escrow vault sTA
        = Except.ok ({ escrow with state := EscrowState.Released },
                     { vault with amount := 0 },
                     { sTA with amount := sTA.amount + escrow.amount }))
    ∧ (escrow.state ≠ EscrowState.Locked →
      release bk mk escrow vault sTA = Except.error ProgErr.NotLocked
      ∧ applyRelease bk mk escrow vault sTA = (escrow, vault, sTA)) := by
  constructor
  · intro hlock
    unfold release transferChecked
    simp [hb, hm, hs, hv, hlock, hbal]
  · intro hnl
    have herr : release bk mk escrow vault sTA = Except.error ProgErr.NotLocked := by
      unfold release
      simp [hb, hm, hs, hnl]
    refine ⟨herr, ?_⟩
    unfold applyRelease
    rw [herr]

/-- C2 witness: a concrete locked release, and a concrete released record on
which release fails with `NotLocked`. -/
theorem release_locked_moves_amount_witness :
    release 1 3
      { buyer := 1, seller := 2, mint := 3, amount := 40, deadline := 99,
        bump := 0, vault_bump := 0, state := EscrowState.Locked }
      { mint := 3, owner := 9, amount := 40 } { mint := 3, owner := 2, amount := 5 }
      = Except.ok
          ({ buyer := 1, seller := 2, mint := 3, amount := 40, deadline := 99,
             bump := 0, vault_bump := 0, state := EscrowState.Released },
           { mint := 3, owner := 9, amount := 0 },
           { mint := 3, owner := 2, amount := 45 })
    ∧ release 1 3
        { buyer := 1, seller := 2, mint := 3, amount := 40, deadline := 99,
          bump := 0, vault_bump := 0, state := EscrowState.Released }
        { mint := 3, owner := 9, amount := 40 } { mint := 3, owner := 2, amount := 45 }
      = Except.error ProgErr.NotLocked :=
  ⟨(release_locked_moves_amount 1 3 _ _ _ rfl rfl rfl rfl rfl).1 rfl,
   ((release_locked_moves_amount 1 3 _ _ _ rfl rfl rfl rfl rfl).2 (by decide)).1⟩

/-- C3: a `cancel` on a `Locked` record with valid accounts and a vault
holding exactly the recorded amount succeeds for every current time `now` —
strictly before, at, or after the stored deadline (the handler reads no
clock) — moving the amount from the vault back to the buyer token account and
setting the state to `Cancelled`; it fails with `NotLocked` exactly when the
state is not `Locked`. -/
theorem cancel_locked_anytime (now : Int) (bk mk : Nat) (escrow : Escrow)
    (vault bTA : TokenAccount)
    (hb : escrow.buyer = bk) (hm : escrow.mint = mk)
    (ht : bTA.mint = mk) (ho : bTA.owner = bk)
    (hv : vault.mint = mk) (hbal : vault.amount = escrow.amount)
    (htime : now < escrow.deadline ∨ now = escrow.deadline ∨ escrow.deadline < now) :
    (escrow.state = EscrowState.Locked →
      cancel bk mk escrow vault bTA
        = Except.ok ({ escrow with state := EscrowState.Cancelled },
                     { vault with amount := 0 },
                     { bTA with amount := bTA.amount + escrow.amount }))
    ∧ (escrow.state ≠ EscrowState.Locked ↔
      cancel bk mk escrow vault bTA = Except.error ProgErr.NotLocked) := by
  have hok : escrow.state = EscrowState.Locked →
      cancel bk mk escrow vault bTA
        = Except.ok ({ escrow with state := EscrowState.Cancelled },
                     { vault with amount := 0 },
                     { bTA with amount := bTA.amount + escrow.amount }) := by
    intro hlock
    unfold cancel transferChecked
    simp [hb, hm, ht, ho, hv, hlock, hbal]
  refine ⟨hok, ?_, ?_⟩
  · intro hnl
    unfold cancel
    simp [hb, hm, ht, ho, hnl]
  · intro herr hlock
    rw [hok hlock] at herr
    exact Except.noConfusion herr

/-- C3 witness: a concrete cancel succeeding with `now` after the deadline,
and a cancelled record on which cancel fails with `NotLocked`. -/
theorem cancel_locked_anytime_witness :
    cancel 1 3
      { buyer := 1, seller := 2, mint := 3, amount := 40, deadline := 99,
        bump := 0, vault_bump := 0, state := EscrowState.Locked }
      { mint := 3, owner := 9, amount := 40 } { mint := 3, owner := 1, amount := 5 }
      = Except.ok
          ({ buyer := 1, seller := 2, mint := 3, amount := 40, deadline := 99,
             bump := 0, vault_bump := 0, state := EscrowState.Cancelled },
           { mint := 3, owner := 9, amount := 0 },
           { mint := 3, owner := 1, amount := 45 })
    ∧ cancel 1 3
        { buyer := 1, seller := 2, mint := 3, amount := 40, deadline := 99,
          bump := 0, vault_bump := 0, state := EscrowState.Cancelled }
        { mint := 3, owner := 9, amount := 40 } { mint := 3, owner := 1, amount := 45 }
      = Except.error ProgErr.NotLocked :=
  ⟨(cancel_locked_anytime 500 1 3 _ _ _ rfl rfl rfl rfl rfl rfl
      (Or.inr (Or.inr (by decide)))).1 rfl,
   (cancel_locked_anytime 500 1 3 _ _ _ rfl rfl rfl rfl rfl rfl
      (Or.inr (Or.inr (by decide)))).2.mp (by decide)⟩

/-- C1: the escrow state machine is absorbing in its terminal states — on a
`Released` or `Cancelled` record both `release` and `cancel` (with accounts
passing the Anchor constraints) fail with `NotLocked` and leave everything
unchanged; and from `Locked`, once `release` succeeds the resulting record
rejects `cancel` with `NotLocked`, and once `cancel` succeeds the resulting
record rejects `release` with `NotLocked`. -/
theorem escrow_terminal_absorbing (bk mk : Nat) (escrow : Escrow)
    (vault sTA bTA : TokenAccount)
    (hb : escrow.buyer = bk) (hm : escrow.mint = mk)
    (hs : sTA.mint = mk) (ht : bTA.mint = mk) (ho : bTA.owner = bk) :
    ((escrow.state = EscrowState.Released ∨ escrow.state = EscrowState.Cancelled) →
      release bk mk escrow vault sTA = Except.error ProgErr.NotLocked
      ∧ cancel bk mk escrow vault bTA = Except.error ProgErr.NotLocked
      ∧ applyRelease bk mk escrow vault sTA = (escrow, vault, sTA)
      ∧ applyCancel bk mk escrow vault bTA = (escrow, vault, bTA))
    ∧ (∀ e v s, escrow.state = EscrowState.Locked →
        release bk mk escrow vault sTA = Except.ok (e, v, s) →
        e.state = EscrowState.Released
        ∧ ∀ v2 : TokenAccount, cancel bk mk e v2 bTA = Except.error ProgErr.NotLocked)
    ∧ (∀ e v b, escrow.state = EscrowState.Locked →
        cancel bk mk escrow vault bTA = Except.ok (e, v, b) →
        e.state = EscrowState.Cancelled
        ∧ ∀ v2 s2 : TokenAccount, s2.mint = mk →
            release bk mk e v2 s2 = Except.error ProgErr.NotLocked) := by
  refine ⟨?_, ?_, ?_⟩
  · intro hterm
    have hnl : ¬ escrow.state = EscrowState.Locked := by
      rcases hterm with h | h <;> rw [h] <;> intro hc <;> exact EscrowState.noConfusion hc
    have hrel : release bk mk escrow vault sTA = Except.error ProgErr.NotLocked := by
      unfold release
      simp [hb, hm, hs, hnl]
    have hcan : cancel bk mk escrow vault bTA = Except.error ProgErr.NotLocked := by
      unfold cancel
      simp [hb, hm, ht, ho, hnl]
    refine ⟨hrel, hcan, ?_, ?_⟩
    · unfold applyRelease
      rw [hrel]
    · unfold applyCancel
      rw [hcan]
  · intro e v s hlock hok
    have he : e = { escrow with state := EscrowState.Released } := by
      cases htc : transferChecked vault sTA mk escrow.amount with
      | error err =>
          unfold release at hok
          simp [hb, hm, hs, hlock, htc] at hok
      | ok p =>
          obtain ⟨v1, s1⟩ := p
          unfold release at hok
          simp [hb, hm, hs, hlock, htc] at hok
          rw [← hok.1]
          simp [hb, hm]
    subst he
    refine ⟨rfl, ?_⟩
    intro v2
    unfold cancel
    simp [hb, hm, ht, ho]
  · intro e v b hlock hok
    have he : e = { escrow with state := EscrowState.Cancelled } := by
      cases htc : transferChecked vault bTA mk escrow.amount with
      | error err =>
          unfold cancel at hok
          simp [hb, hm, ht, ho, hlock, htc] at hok
      | ok p =>
          obtain ⟨v1, b1⟩ := p
          unfold cancel at hok
          simp [hb, hm, ht, ho, hlock, htc] at hok
          rw [← hok.1]
          simp [hb, hm]
    subst he
    refine ⟨rfl, ?_⟩
    intro v2 s2 hs2
    unfold release
    simp [hb, hm, hs2]

/-- C1 witness: on a concrete `Released` record, both `release` and `cancel`
fail with `NotLocked`. -/
theorem escrow_terminal_absorbing_witness :
    release 1 3
      { buyer := 1, seller := 2, mint := 3, amount := 40, deadline := 99,
        bump := 0, vault_bump := 0, state := EscrowState.Released }
      { mint := 3, owner := 9, amount := 0 } { mint := 3, owner := 2, amount := 45 }
      = Except.error ProgErr.NotLocked
    ∧ cancel 1 3
        { buyer := 1, seller := 2, mint := 3, amount := 40, deadline := 99,
          bump := 0, vault_bump := 0, state := EscrowState.Released }
        { mint := 3, owner := 9, amount := 0 } { mint := 3, owner := 1, amount := 5 }
      = Except.error ProgErr.NotLocked :=
  ⟨((escrow_terminal_absorbing 1 3
      { buyer := 1, seller := 2, mint := 3, amount := 40, deadline := 99,
        bump := 0, vault_bump := 0, state := EscrowState.Released }
      { mint := 3, owner := 9, amount := 0 } { mint := 3, owner := 2, amount := 45 }
      { mint := 3, owner := 1, amount := 5 }
      rfl rfl rfl rfl rfl).1 (Or.inl rfl)).1,
   ((escrow_terminal_absorbing 1 3
      { buyer := 1, seller := 2, mint := 3, amount := 40, deadline := 99,
        bump := 0, vault_bump := 0, state := EscrowState.Released }
      { mint := 3, owner := 9, amount := 0 } { mint := 3, owner := 2, amount := 45 }
      { mint := 3, owner := 1, amount := 5 }
      rfl rfl rfl rfl rfl).1 (Or.inl rfl)).2.1⟩

/-- C8: whenever an operation returns an error, the observable post-state of
the transaction equals the pre-state — no record is created by a failed
`initialize`, and a failed `release` or `cancel` leaves the record and all
balances untouched. -/
theorem error_leaves_state_unchanged :
    (∀ (now : Int) (bk sk mk vk : Nat) (bTA : TokenAccount) (ex : Bool)
        (amount : Nat) (deadline : Int) (bump vbump : Nat) (e : ProgErr),
        initEscrow now bk sk mk vk bTA ex amount deadline bump vbump
          = Except.error e →
        applyInitEscrow now bk sk mk vk bTA ex amount deadline bump vbump
          = (none, bTA, none))
    ∧ (∀ (bk mk : Nat) (escrow : Escrow) (vault sTA : TokenAccount) (e : ProgErr),
        release bk mk escrow vault sTA = Except.error e →
        applyRelease bk mk escrow vault sTA = (escrow, vault, sTA))
    ∧ (∀ (bk mk : Nat) (escrow : Escrow) (vault bTA : TokenAccount) (e : ProgErr),
        cancel bk mk escrow vault bTA = Except.error e →
        applyCancel bk mk escrow vault bTA = (escrow, vault, bTA)) := by
  refine ⟨?_, ?_, ?_⟩
  · intro now bk sk mk vk bTA ex amount deadline bump vbump e h
    unfold applyInitEscrow
    rw [h]
  · intro bk mk escrow vault sTA e h
    unfold applyRelease
    rw [h]
  · intro bk mk escrow vault bTA e h
    unfold applyCancel
    rw [h]

/-- C8 witness: a failed concrete `initialize` (zero amount) and a failed
concrete `release` (record already released) leave the pre-state intact. -/
theorem error_leaves_state_unchanged_witness :
    applyInitEscrow 0 1 2 3 4 { mint := 3, owner := 1, amount := 10 } false 0 3600 0 0
      = (none, { mint := 3, owner := 1, amount := 10 }, none)
    ∧ applyRelease 1 3
        { buyer := 1, seller := 2, mint := 3, amount := 40, deadline := 99,
          bump := 0, vault_bump := 0, state := EscrowState.Released }
        { mint := 3, owner := 9, amount := 0 } { mint := 3, owner := 2, amount := 45 }
      = ({ buyer := 1, seller := 2, mint := 3, amount := 40, deadline := 99,
           bump := 0, vault_bump := 0, state := EscrowState.Released },
         { mint := 3, owner := 9, amount := 0 }, { mint := 3, owner := 2, amount := 45 }) :=
  ⟨error_leaves_state_unchanged.1 0 1 2 3 4 _ false 0 3600 0 0 ProgErr.ZeroAmount rfl,
   error_leaves_state_unchanged.2.1 1 3 _ _ _ ProgErr.NotLocked rfl⟩

/-- C4 amended: provided the guard's addition does not overflow
(`now + MAX_DEADLINE_SECS ≤ i64::MAX`), every `initialize` with valid funded
accounts, `amount > 0` and `now < deadline ≤ now + 90 days` succeeds,
creating a `Locked` record that stores the given buyer, seller, mint, amount
and deadline, and moving exactly `amount` from the buyer's token account into
the freshly created vault. -/
theorem init_success_amended (now : Int) (bk sk mk vk : Nat)
    (bTA : TokenAccount) (amount : Nat) (deadline : Int) (bump vbump : Nat)
    (h1 : bTA.mint = mk) (h2 : bTA.owner = bk)
    (hamt : 0 < amount) (hbal : amount ≤ bTA.amount)
    (hdl1 : now < deadline) (hdl2 : deadline ≤ now + MAX_DEADLINE_SECS)
    (hlo : INT64_MIN ≤ now) (hhi : now + MAX_DEADLINE_SECS ≤ INT64_MAX) :
    initEscrow now bk sk mk vk bTA false amount deadline bump vbump
      = Except.ok
          ({ buyer := bk, seller := sk, mint := mk, amount := amount,
             deadline := deadline, bump := bump, vault_bump := vbump,
             state := EscrowState.Locked },
           { bTA with amount := bTA.amount - amount },
           { mint := mk, owner := vk, amount := amount }) := by
  have hM : (0 : Int) ≤ MAX_DEADLINE_SECS := by norm_num [MAX_DEADLINE_SECS]
  have hlo' : INT64_MIN ≤ now + MAX_DEADLINE_SECS := by
    have : INT64_MIN ≤ now := hlo
    linarith
  have hw : wrapI64 (now + MAX_DEADLINE_SECS) = now + MAX_DEADLINE_SECS :=
    wrapI64_id _ hlo' hhi
  unfold initEscrow deadlineWithinHorizon transferChecked
  simp [h1, h2, hamt, hbal, hdl1, hw, not_lt.mpr hdl2, hdl2]

/-- C4 witness: the amended initialization theorem at the spec's concrete
scenario `Initialize(amount=1000, deadline=now+86400)` with `now = 0`. -/
theorem init_success_amended_witness :
    initEscrow 0 1 2 3 4 { mint := 3, owner := 1, amount := 2500 } false 1000 86400 7 8
      = Except.ok
          ({ buyer := 1, seller := 2, mint := 3, amount := 1000,
             deadline := 86400, bump := 7, vault_bump := 8,
             state := EscrowState.Locked },
           { mint := 3, owner := 1, amount := 1500 },
           { mint := 3, owner := 4, amount := 1000 }) :=
  init_success_amended 0 1 2 3 4 { mint := 3, owner := 1, amount := 2500 }
    1000 86400 7 8 rfl rfl (by decide) (by decide) (by decide)
    (by norm_num [MAX_DEADLINE_SECS]) (by norm_num [INT64_MIN])
    (by norm_num [MAX_DEADLINE_SECS, INT64_MAX])

/-- C6 amended: for `initialize` calls with valid accounts and `amount > 0`,
a deadline at or before `now` fails with `DeadlineInPast`, and a deadline
more than 90 days (7,776,000 s) past `now` fails with `DeadlineTooFar`; in
both cases no record is created and no funds move. (The `amount > 0`
hypothesis is required on the first clause too: with `amount = 0` the earlier
amount check reports `ZeroAmount` instead.) -/
theorem init_deadline_errors_amended :
    (∀ (now : Int) (bk sk mk vk : Nat) (bTA : TokenAccount) (amount : Nat)
        (deadline : Int) (bump vbump : Nat),
        bTA.mint = mk → bTA.owner = bk → 0 < amount → deadline ≤ now →
        initEscrow now bk sk mk vk bTA false amount deadline bump vbump
          = Except.error ProgErr.DeadlineInPast
        ∧ applyInitEscrow now bk sk mk vk bTA false amount deadline bump vbump
          = (none, bTA, none))
    ∧ (∀ (now : Int) (bk sk mk vk : Nat) (bTA : TokenAccount) (amount : Nat)
        (deadline : Int) (bump vbump : Nat),
        bTA.mint = mk → bTA.owner = bk → 0 < amount →
        INT64_MIN ≤ now → deadline ≤ INT64_MAX →
        now + MAX_DEADLINE_SECS < deadline →
        initEscrow now bk sk mk vk bTA false amount deadline bump vbump
          = Except.error ProgErr.DeadlineTooFar
        ∧ applyInitEscrow now bk sk mk vk bTA false amount deadline bump vbump
          = (none, bTA, none)) := by
  constructor
  · intro now bk sk mk vk bTA amount deadline bump vbump h1 h2 hamt hdl
    have hmain : initEscrow now bk sk mk vk bTA false amount deadline bump vbump
        = Except.error ProgErr.DeadlineInPast := by
      unfold initEscrow
      simp [h1, h2, hamt, not_lt.mpr hdl]
    refine ⟨hmain, ?_⟩
    unfold applyInitEscrow
    rw [hmain]
  · intro now bk sk mk vk bTA amount deadline bump vbump h1 h2 hamt hlo hdmax hfar
    have hM : (0 : Int) < MAX_DEADLINE_SECS := by norm_num [MAX_DEADLINE_SECS]
    have hdl1 : now < deadline := by linarith
    have hlo' : INT64_MIN ≤ now + MAX_DEADLINE_SECS := by
      have : INT64_MIN ≤ now := hlo
      linarith
    have hhi : now + MAX_DEADLINE_SECS ≤ INT64_MAX := by linarith
    have hw := wrapI64_id _ hlo' hhi
    have hmain : initEscrow now bk sk mk vk bTA false amount deadline bump vbump
        = Except.error ProgErr.DeadlineTooFar := by
      unfold initEscrow deadlineWithinHorizon
      simp [h1, h2, hamt, hdl1, hw, not_le.mpr hfar]
    refine ⟨hmain, ?_⟩
    unfold applyInitEscrow
    rw [hmain]

/-- C6 witness: a concrete past deadline fails with `DeadlineInPast`, and the
spec's concrete scenario `Initialize(amount=500, deadline=now+200000000)`
(with `now = 1700000000`) fails with `DeadlineTooFar`. -/
theorem init_deadline_errors_amended_witness :
    initEscrow 0 1 2 3 4 { mint := 3, owner := 1, amount := 10 } false 5 (-100) 0 0
      = Except.error ProgErr.DeadlineInPast
    ∧ initEscrow 1700000000 1 2 3 4 { mint := 3, owner := 1, amount := 1000 } false
        500 1900000000 0 0
      = Except.error ProgErr.DeadlineTooFar :=
  ⟨(init_deadline_errors_amended.1 0 1 2 3 4 _ 5 (-100) 0 0 rfl rfl (by decide)
      (by decide)).1,
   (init_deadline_errors_amended.2 1700000000 1 2 3 4 _ 500 1900000000 0 0 rfl rfl
      (by decide) (by decide) (by decide) (by decide)).1⟩

/-- C10: below the overflow boundary (`now ≤ i64::MAX - 7,776,000`) the
`DeadlineTooFar` guard decides exactly `deadline ≤ now + 90 days`; above it
the wrapping `i64` addition makes the guard diverge — there are in-range
`now`, `deadline` with `deadline ≤ now + 90 days` that the guard rejects. -/
theorem deadline_guard_exact_and_overflow :
    (∀ now deadline : Int, INT64_MIN ≤ now → now ≤ INT64_MAX - MAX_DEADLINE_SECS →
        (deadlineWithinHorizon now deadline ↔ deadline ≤ now + MAX_DEADLINE_SECS))
    ∧ (∃ now deadline : Int,
        INT64_MAX - MAX_DEADLINE_SECS < now ∧ now ≤ INT64_MAX
        ∧ INT64_MIN ≤ deadline ∧ deadline ≤ INT64_MAX
        ∧ deadline ≤ now + MAX_DEADLINE_SECS
        ∧ ¬ deadlineWithinHorizon now deadline) := by
  constructor
  · intro now deadline hlo hhi
    have hM : (0 : Int) ≤ MAX_DEADLINE_SECS := by norm_num [MAX_DEADLINE_SECS]
    have hlo' : INT64_MIN ≤ now + MAX_DEADLINE_SECS := by
      have : INT64_MIN ≤ now := hlo
      linarith
    have hhi' : now + MAX_DEADLINE_SECS ≤ INT64_MAX := by
      have : now ≤ INT64_MAX - MAX_DEADLINE_SECS := hhi
      linarith
    unfold deadlineWithinHorizon
    rw [wrapI64_id _ hlo' hhi']
  · exact ⟨INT64_MAX, INT64_MAX, by decide, by decide, by decide, by decide,
      by decide, by decide⟩

/-- C10 witness: the exactness clause instantiated at `now = 0`,
`deadline = 5`. -/
theorem deadline_guard_exact_and_overflow_witness :
    deadlineWithinHorizon 0 5 ↔ (5 : Int) ≤ 0 + MAX_DEADLINE_SECS :=
  deadline_guard_exact_and_overflow.1 0 5 (by decide) (by decide)

end SolanaEscrow
